import Mathlib

/-!
# EVOO — verification of the learning-loop control plane

A shallow embedding of the EVOO autonomous-remediation agent
(reward evaluator, LLM-judge fallback, incident simulator effect,
strategy statistics, ε-greedy planner, guardrail engine, agentic
executor loop, experience store, and the learning-loop state machine),
together with theorems settling the specification claims C1–C10.

Numbers that the Python source manipulates as floats are embedded as
exact rationals (ℚ); Python's `round(x, nd)` built-in (banker's
rounding) is embedded as exact half-to-even rounding on ℚ.
-/

namespace Evoo

/-- Round a rational to the nearest integer, ties to even — the rounding
mode of Python's built-in `round`. -/
def roundHalfEven (q : ℚ) : ℤ :=
  if q - ⌊q⌋ < 1/2 then ⌊q⌋
  else if 1/2 < q - ⌊q⌋ then ⌊q⌋ + 1
  else if ⌊q⌋ % 2 = 0 then ⌊q⌋ else ⌊q⌋ + 1

/-- Python's `round(q, nd)` on exact rationals. -/
def pyRound (nd : ℕ) (q : ℚ) : ℚ :=
  (roundHalfEven (q * 10 ^ nd) : ℚ) / 10 ^ nd

/-- The system-metrics observation vector (`SystemMetrics`), restricted to
the numeric fields the evaluator and simulator read.  All fields are
present on every `SystemMetrics.model_dump`, so the Python `.get`
defaults never fire on this path. -/
structure Metrics where
  latency_ms : ℚ := 0
  cpu_percent : ℚ := 0
  memory_percent : ℚ := 0
  error_rate : ℚ := 0
  availability : ℚ := 0.5
  active_instances : ℤ := 1
  timeout_ms : ℤ := 5000
  deriving DecidableEq, Repr

/-- Input record of `calculate_reward_activity`. -/
structure RewardParams where
  metrics_before : Metrics
  metrics_after : Metrics
  recovery_time_seconds : ℚ
  service_restored : Bool
  infrastructure_cost : ℚ
  strategy_name : String
  incident_type : String
  deriving DecidableEq, Repr

/-- Strategies that attract the unnecessary-scaling penalty. -/
def scalingStrategies : List String :=
  ["scale_horizontal", "combined_restart_scale", "combined_rollback_scale"]

/-- Incident types for which scaling is considered unnecessary. -/
def scalingIncidents : List String :=
  ["timeout_misconfiguration", "memory_leak"]

/-- The guard of the `unnecessary_scaling_penalty` branch of
`calculate_reward_activity`. -/
def unnecessaryScaling (p : RewardParams) : Bool :=
  scalingStrategies.contains p.strategy_name
    && scalingIncidents.contains p.incident_type

/-- Source: `rt_penalty = recovery_time_seconds * 0.5`. -/
def rtPenalty (p : RewardParams) : ℚ := p.recovery_time_seconds * 0.5

/-- Source: `cost_penalty = infrastructure_cost * 0.2`. -/
def costPenalty (p : RewardParams) : ℚ := p.infrastructure_cost * 0.2

/-- Source: `error_penalty = error_rate_after * 50.0`. -/
def errorPenalty (p : RewardParams) : ℚ := p.metrics_after.error_rate * 50

/-- Source: `latency_bonus = min(max(0, latency_before - latency_after), 500) * 0.02`. -/
def latencyBonus (p : RewardParams) : ℚ :=
  min (max 0 (p.metrics_before.latency_ms - p.metrics_after.latency_ms)) 500 * 0.02

/-- Source: `avail_bonus = max(0, avail_after - avail_before) * 50.0`. -/
def availBonus (p : RewardParams) : ℚ :=
  max 0 (p.metrics_after.availability - p.metrics_before.availability) * 50

/-- Source: `cpu_improvement * 0.05`. -/
def cpuBonus (p : RewardParams) : ℚ :=
  max 0 (p.metrics_before.cpu_percent - p.metrics_after.cpu_percent) * 0.05

/-- The running `reward` accumulator of `calculate_reward_activity`
just before the final `round(reward, 2)`. -/
def rawReward (p : RewardParams) : ℚ :=
  (if p.service_restored then 100 else -50)
    - rtPenalty p
    - costPenalty p
    - errorPenalty p
    + latencyBonus p
    + availBonus p
    + (if unnecessaryScaling p then -10 else 0)
    + cpuBonus p

/-- The scalar `reward` returned by `calculate_reward_activity`
(the accumulated sum rounded to two decimals). -/
def calculateReward (p : RewardParams) : ℚ := pyRound 2 (rawReward p)

/-- The `breakdown` map of `calculate_reward_activity`, in insertion
order; each entry is rounded to two decimals exactly as in the source. -/
def rewardBreakdown (p : RewardParams) : List (String × ℚ) :=
  [(if p.service_restored then ("service_restored", (100 : ℚ))
    else ("service_not_restored", (-50 : ℚ))),
   ("recovery_time_penalty", -(pyRound 2 (rtPenalty p))),
   ("infrastructure_cost_penalty", -(pyRound 2 (costPenalty p))),
   ("error_rate_penalty", -(pyRound 2 (errorPenalty p))),
   ("latency_improvement_bonus", pyRound 2 (latencyBonus p)),
   ("availability_improvement_bonus", pyRound 2 (availBonus p))]
  ++ (if unnecessaryScaling p then [("unnecessary_scaling_penalty", (-10 : ℚ))] else [])
  ++ [("cpu_improvement_bonus", pyRound 2 (cpuBonus p))]

/-- Sum of the values of the evaluator's breakdown map. -/
def breakdownSum (p : RewardParams) : ℚ :=
  ((rewardBreakdown p).map Prod.snd).sum

/-- The reward formula exactly as the specification words it (§4.9):
an unrounded signed sum of the seven components. -/
def specRewardFormula (p : RewardParams) : ℚ :=
  (if p.service_restored then 100 else -50)
    - 0.5 * p.recovery_time_seconds
    - 0.2 * p.infrastructure_cost
    - 50 * p.metrics_after.error_rate
    + 0.02 * min (max 0 (p.metrics_before.latency_ms - p.metrics_after.latency_ms)) 500
    + 50 * max 0 (p.metrics_after.availability - p.metrics_before.availability)
    + 0.05 * max 0 (p.metrics_before.cpu_percent - p.metrics_after.cpu_percent)
    - (if unnecessaryScaling p then 10 else 0)

/-- Source: `_fallback_evaluation`: heuristic verdict and score used when the
LLM judge call fails. -/
def fallbackVerdict (m : Metrics) : String × ℤ :=
  if 0.99 ≤ m.availability ∧ m.error_rate ≤ 0.01 then ("excellent", 9)
  else if 0.95 ≤ m.availability then ("good", 7)
  else if 0.80 ≤ m.availability then ("adequate", 5)
  else if 0.50 ≤ m.availability then ("poor", 3)
  else ("failed", 1)

/-- Source: `llm_evaluate_remediation_activity` reduced to its control flow: a
successful LLM call returns the LLM's own evaluation, any failure
returns `_fallback_evaluation` on `metrics_after`. -/
def llmEvaluateVerdict (llm : Option (String × ℤ)) (m : Metrics) : String × ℤ :=
  match llm with
  | some e => e
  | none => fallbackVerdict m

/-- The heuristic verdict as claim C9 words it: determined solely by
`availability_after`. -/
def claimHeuristicVerdict (m : Metrics) : String :=
  if 0.99 ≤ m.availability then "excellent"
  else if 0.95 ≤ m.availability then "good"
  else if 0.80 ≤ m.availability then "adequate"
  else if 0.50 ≤ m.availability then "poor"
  else "failed"

/-- The heuristic verdict as amended: `excellent` needs both
`availability_after ≥ 0.99` and `error_rate_after ≤ 0.01`; the
remaining tiers depend on `availability_after` alone. -/
def amendedHeuristicVerdict (m : Metrics) : String :=
  if 0.99 ≤ m.availability ∧ m.error_rate ≤ 0.01 then "excellent"
  else if 0.95 ≤ m.availability then "good"
  else if 0.80 ≤ m.availability then "adequate"
  else if 0.50 ≤ m.availability then "poor"
  else "failed"

/- ### Incident simulator (`simulation_activities.py`) -/

/-- One entry of `REMEDIATION_EFFECTS`: mean effectiveness and the
recovery-time sampling range in seconds. -/
structure Effect where
  effectiveness : ℚ
  recovery_low : ℚ
  recovery_high : ℚ
  deriving DecidableEq, Repr

/-- The hard-coded fallback used when a strategy has no table entry at
all: `{"effectiveness": 0.20, "recovery_time": (30, 120)}`. -/
def defaultEffect : Effect := ⟨0.20, 30, 120⟩

/-- The `REMEDIATION_EFFECTS` table, transcribed row by row. -/
def remediationEffects : List (String × List (String × Effect)) :=
  [("restart_service",
    [("service_crash", ⟨0.95, 10, 30⟩), ("memory_leak", ⟨0.80, 15, 45⟩),
     ("cpu_spike", ⟨0.50, 20, 60⟩), ("high_latency", ⟨0.40, 25, 70⟩),
     ("network_degradation", ⟨0.20, 40, 120⟩),
     ("timeout_misconfiguration", ⟨0.10, 60, 180⟩),
     ("default", ⟨0.30, 30, 90⟩)]),
   ("scale_horizontal",
    [("high_latency", ⟨0.85, 20, 60⟩), ("cpu_spike", ⟨0.80, 20, 50⟩),
     ("network_degradation", ⟨0.65, 25, 70⟩), ("service_crash", ⟨0.50, 15, 40⟩),
     ("memory_leak", ⟨0.30, 30, 90⟩), ("timeout_misconfiguration", ⟨0.20, 40, 120⟩),
     ("default", ⟨0.40, 30, 80⟩)]),
   ("scale_vertical",
    [("cpu_spike", ⟨0.88, 15, 45⟩), ("memory_leak", ⟨0.75, 20, 60⟩),
     ("high_latency", ⟨0.60, 20, 55⟩), ("default", ⟨0.35, 30, 90⟩)]),
   ("change_timeout",
    [("timeout_misconfiguration", ⟨0.92, 5, 20⟩), ("high_latency", ⟨0.45, 10, 30⟩),
     ("default", ⟨0.15, 20, 60⟩)]),
   ("rollback_deployment",
    [("service_crash", ⟨0.88, 20, 60⟩), ("high_latency", ⟨0.70, 20, 55⟩),
     ("cpu_spike", ⟨0.60, 25, 65⟩), ("default", ⟨0.45, 30, 80⟩)]),
   ("clear_cache",
    [("memory_leak", ⟨0.70, 5, 20⟩), ("high_latency", ⟨0.55, 8, 25⟩),
     ("cpu_spike", ⟨0.40, 10, 35⟩), ("default", ⟨0.25, 10, 40⟩)]),
   ("rebalance_load",
    [("network_degradation", ⟨0.80, 10, 35⟩), ("high_latency", ⟨0.65, 12, 40⟩),
     ("cpu_spike", ⟨0.55, 15, 45⟩), ("default", ⟨0.30, 20, 60⟩)]),
   ("combined_restart_scale",
    [("service_crash", ⟨0.97, 12, 35⟩), ("high_latency", ⟨0.88, 18, 50⟩),
     ("cpu_spike", ⟨0.85, 15, 45⟩), ("default", ⟨0.70, 20, 55⟩)]),
   ("combined_cache_rebalance",
    [("memory_leak", ⟨0.85, 8, 25⟩), ("network_degradation", ⟨0.82, 10, 30⟩),
     ("high_latency", ⟨0.75, 12, 38⟩), ("default", ⟨0.55, 15, 50⟩)]),
   ("combined_rollback_scale",
    [("service_crash", ⟨0.93, 18, 50⟩), ("high_latency", ⟨0.87, 18, 52⟩),
     ("default", ⟨0.65, 25, 65⟩)])]

/-- Source: `strategy_effects.get(incident_type, strategy_effects.get("default", …))`
with the outer `REMEDIATION_EFFECTS.get(strategy_name, {})`. -/
def lookupEffect (strategy_name incident_type : String) : Effect :=
  match remediationEffects.lookup strategy_name with
  | none => defaultEffect
  | some entries =>
    match entries.lookup incident_type with
    | some e => e
    | none => (entries.lookup "default").getD defaultEffect

/-- Optional tool parameters (`tool_parameters` dict keys read anywhere
in the embedded code). `none` models an absent key. -/
structure ToolParams where
  target_instances : Option ℤ := none
  target_cpu : Option ℚ := none
  target_memory : Option ℚ := none
  target_memory_gb : Option ℚ := none
  new_timeout : Option ℤ := none
  new_timeout_ms : Option ℤ := none
  deriving DecidableEq, Repr

/-- Source: `lerp` from `apply_remediation_to_simulation_activity`. -/
def lerp (bad good eff : ℚ) : ℚ := bad + (good - bad) * eff

/-- Source: `_compute_infra_cost`. -/
def computeInfraCost (metrics : Metrics) (params : ToolParams) : ℚ :=
  let instances := params.target_instances.getD metrics.active_instances
  let c1 : ℚ := if 3 < instances then 1 + ((instances - 3 : ℤ) : ℚ) * 0.5 else 1
  let cpu_cores := params.target_cpu.getD 1
  let c2 : ℚ := if 2 < cpu_cores then c1 + (cpu_cores - 2) * 0.3 else c1
  pyRound 2 c2

/-- The dict returned by `apply_remediation_to_simulation_activity`. -/
structure RemediationResult where
  metrics_after : Metrics
  recovery_time_seconds : ℚ
  service_restored : Bool
  effectiveness : ℚ
  infrastructure_cost : ℚ
  deriving DecidableEq, Repr

/-- Source: `apply_remediation_to_simulation_activity`.  The two random draws are
explicit arguments: `noise` is the `random.gauss(0, 0.08)` sample and
`u` the `random.uniform(0, 1)` position inside the recovery range. -/
def applyRemediation (before : Metrics) (incident_type strategy_name : String)
    (tool_parameters : ToolParams) (noise : ℚ) (u : ℚ) : RemediationResult :=
  let effect := lookupEffect strategy_name incident_type
  let eff := max 0 (min 1 (effect.effectiveness + noise))
  let recovery_time :=
    pyRound 1 (effect.recovery_low + u * (effect.recovery_high - effect.recovery_low))
  let after : Metrics :=
    { latency_ms := pyRound 1 (lerp before.latency_ms 120 eff)
      cpu_percent := pyRound 1 (lerp before.cpu_percent 25 eff)
      memory_percent := pyRound 1 (lerp before.memory_percent 45 eff)
      error_rate := pyRound 4 (lerp before.error_rate 0.005 eff)
      availability := pyRound 4 (lerp before.availability 0.999 eff)
      active_instances := tool_parameters.target_instances.getD before.active_instances
      timeout_ms := tool_parameters.new_timeout.getD before.timeout_ms }
  let restored : Bool := decide (0.95 ≤ after.availability) && decide (after.error_rate ≤ 0.05)
  { metrics_after := after
    recovery_time_seconds := recovery_time
    service_restored := restored
    effectiveness := eff
    infrastructure_cost := computeInfraCost after tool_parameters }

/- ### Strategy statistics (`strategy_activities.py`, `models/strategies.py`) -/

/-- The per-(incident, strategy) record dict of
`update_strategy_record_activity`. -/
structure ActivityRecord where
  total_uses : ℕ
  total_reward : ℚ
  success_count : ℕ
  failure_count : ℕ
  average_reward : ℚ
  success_rate : ℚ
  deriving DecidableEq, Repr

/-- The fresh record created when the key is missing. -/
def initActivityRecord : ActivityRecord := ⟨0, 0, 0, 0, 0, 0⟩

/-- One call of `update_strategy_record_activity` on an existing record:
counters bumped, then `average_reward` and `success_rate` are stored
rounded to three decimals. -/
def updateStrategyRecord (r : ActivityRecord) (reward : ℚ) (success : Bool) :
    ActivityRecord :=
  let uses := r.total_uses + 1
  let tot := r.total_reward + reward
  let sc := r.success_count + (if success then 1 else 0)
  let fc := r.failure_count + (if success then 0 else 1)
  { total_uses := uses
    total_reward := tot
    success_count := sc
    failure_count := fc
    average_reward := pyRound 3 (tot / (uses : ℚ))
    success_rate := pyRound 3 ((sc : ℚ) / (uses : ℚ)) }

/-- A sequence of `update_strategy_record_activity` calls on one
`(incident_type, strategy)` key, starting from the missing-key default. -/
def applyUpdates (l : List (ℚ × Bool)) : ActivityRecord :=
  l.foldl (fun r x => updateStrategyRecord r x.1 x.2) initActivityRecord

/-- Source: `StrategyRecord` of `models/strategies.py` (numeric fields). -/
structure ModelStrategyRecord where
  total_uses : ℕ
  total_successes : ℕ
  total_failures : ℕ
  total_reward : ℚ
  average_reward : ℚ
  average_recovery_time : ℚ
  success_rate : ℚ
  deriving DecidableEq, Repr

/-- A fresh `StrategyRecord` (pydantic field defaults). -/
def initModelRecord : ModelStrategyRecord := ⟨0, 0, 0, 0, 0, 0, 0⟩

/-- Source: `StrategyRecord.update_with_result` — exact (unrounded) running
averages. -/
def updateWithResult (r : ModelStrategyRecord) (reward recovery_time : ℚ)
    (success : Bool) : ModelStrategyRecord :=
  let uses := r.total_uses + 1
  let tot := r.total_reward + reward
  let ts := r.total_successes + (if success then 1 else 0)
  let tf := r.total_failures + (if success then 0 else 1)
  { total_uses := uses
    total_successes := ts
    total_failures := tf
    total_reward := tot
    average_reward := tot / (uses : ℚ)
    average_recovery_time :=
      (r.average_recovery_time * ((uses : ℚ) - 1) + recovery_time) / (uses : ℚ)
    success_rate := (ts : ℚ) / (uses : ℚ) }

/-- A sequence of `update_with_result` calls on one record, starting
from the fresh record. -/
def applyResults (l : List (ℚ × ℚ × Bool)) : ModelStrategyRecord :=
  l.foldl (fun r x => updateWithResult r x.1 x.2.1 x.2.2) initModelRecord

/-- The invariant claim C4 states, adjusted to what
`update_strategy_record_activity` actually stores: the averages are the
exact quotients rounded to three decimals. -/
def ActivityInv (r : ActivityRecord) : Prop :=
  r.total_uses = r.success_count + r.failure_count
  ∧ r.success_count ≤ r.total_uses
  ∧ r.average_reward =
      (if r.total_uses = 0 then 0 else pyRound 3 (r.total_reward / (r.total_uses : ℚ)))
  ∧ r.success_rate =
      (if r.total_uses = 0 then 0 else pyRound 3 ((r.success_count : ℚ) / (r.total_uses : ℚ)))
  ∧ 0 ≤ r.success_rate ∧ r.success_rate ≤ 1

/-- The claim-C4 invariant for `StrategyRecord.update_with_result`,
where the quotients are exact. -/
def ModelInv (r : ModelStrategyRecord) : Prop :=
  r.total_uses = r.total_successes + r.total_failures
  ∧ r.total_successes ≤ r.total_uses
  ∧ r.average_reward =
      (if r.total_uses = 0 then 0 else r.total_reward / (r.total_uses : ℚ))
  ∧ r.success_rate =
      (if r.total_uses = 0 then 0 else (r.total_successes : ℚ) / (r.total_uses : ℚ))
  ∧ 0 ≤ r.success_rate ∧ r.success_rate ≤ 1

/- ### Planner (`select_strategy_activity`) -/

/-- Source: `ALL_STRATEGIES = [s.value for s in RemediationStrategy]`, in
declaration order. -/
def allStrategies : List String :=
  ["restart_service", "scale_horizontal", "scale_vertical", "change_timeout",
   "rollback_deployment", "clear_cache", "rebalance_load",
   "combined_restart_scale", "combined_cache_rebalance", "combined_rollback_scale"]

/-- Source: `STRATEGY_PRIORS`. -/
def strategyPriors : List (String × List String) :=
  [("service_crash", ["restart_service", "rollback_deployment"]),
   ("high_latency", ["scale_horizontal", "rebalance_load"]),
   ("cpu_spike", ["scale_vertical", "scale_horizontal"]),
   ("memory_leak", ["restart_service", "clear_cache"]),
   ("network_degradation", ["rebalance_load", "scale_horizontal"]),
   ("timeout_misconfiguration", ["change_timeout", "rollback_deployment"])]

/-- Source: `STRATEGY_PRIORS.get(incident_type, ALL_STRATEGIES)`. -/
def priorsFor (incident_type : String) : List String :=
  (strategyPriors.lookup incident_type).getD allStrategies

/-- Source: `_heuristic_get_tools_for_strategy`'s `tool_map`. -/
def heuristicToolMap : List (String × List String) :=
  [("restart_service", ["analyze_logs_activity", "restart_service_activity", "query_metrics_tool_activity"]),
   ("scale_horizontal", ["query_metrics_tool_activity", "scale_horizontal_activity", "rebalance_load_activity"]),
   ("scale_vertical", ["query_metrics_tool_activity", "scale_vertical_activity", "restart_service_activity"]),
   ("change_timeout", ["analyze_logs_activity", "change_timeout_activity", "query_metrics_tool_activity"]),
   ("rollback_deployment", ["analyze_logs_activity", "rollback_deployment_activity", "query_metrics_tool_activity"]),
   ("clear_cache", ["clear_cache_activity", "query_metrics_tool_activity"]),
   ("rebalance_load", ["rebalance_load_activity", "query_metrics_tool_activity"]),
   ("combined_restart_scale", ["analyze_logs_activity", "restart_service_activity", "scale_horizontal_activity", "rebalance_load_activity"]),
   ("combined_cache_rebalance", ["clear_cache_activity", "rebalance_load_activity", "query_metrics_tool_activity"]),
   ("combined_rollback_scale", ["analyze_logs_activity", "rollback_deployment_activity", "scale_horizontal_activity"])]

/-- Source: `_heuristic_get_tools_for_strategy`. -/
def heuristicTools (strategy : String) : List String :=
  (heuristicToolMap.lookup strategy).getD
    ["query_metrics_tool_activity", "restart_service_activity"]

/-- Source: `_heuristic_get_default_parameters`'s `params_map`. -/
def heuristicParamMap : List (String × ToolParams) :=
  [("scale_horizontal", { target_instances := some 4 }),
   ("scale_vertical", { target_cpu := some 4, target_memory_gb := some 8 }),
   ("change_timeout", { new_timeout := some 15000 }),
   ("combined_restart_scale", { target_instances := some 3 }),
   ("combined_rollback_scale", { target_instances := some 3 })]

/-- Source: `_heuristic_get_default_parameters`. -/
def heuristicParams (strategy : String) : ToolParams :=
  (heuristicParamMap.lookup strategy).getD {}

/-- Source: `_clamp_parameters`: clamp each LLM-provided numeric parameter to
its safe range (a missing key is left missing). -/
def clampParameters (p : ToolParams) : ToolParams :=
  { target_instances := p.target_instances.map (fun n => max 1 (min 10 n))
    target_cpu := p.target_cpu.map (fun c => max 0.5 (min 16 c))
    target_memory := p.target_memory
    target_memory_gb := p.target_memory_gb.map (fun m => max 0.5 (min 64 m))
    new_timeout := p.new_timeout.map (fun t => max 1000 (min 300000 t))
    new_timeout_ms := p.new_timeout_ms.map (fun t => max 1000 (min 300000 t)) }

/-- One stored row of the strategies file, restricted to the fields
`select_strategy_activity` reads. -/
structure StrategyRow where
  total_uses : ℕ
  average_reward : ℚ
  deriving DecidableEq, Repr

/-- The `known_strategies` dict: built scanning `ALL_STRATEGIES` in
order, keeping strategies whose `"<incident>::<strategy>"` row exists
with `total_uses > 0`, mapped to their stored `average_reward`. -/
def knownStrategies (store : List (String × StrategyRow)) (incident_type : String) :
    List (String × ℚ) :=
  allStrategies.filterMap (fun s =>
    match store.lookup (incident_type ++ "::" ++ s) with
    | some row => if 0 < row.total_uses then some (s, row.average_reward) else none
    | none => none)

/-- Source: `known_strategies.get(s, 0)`. -/
def knownLookup (known : List (String × ℚ)) (s : String) : ℚ :=
  (known.lookup s).getD 0

/-- Source: `underused = [s for s in ALL_STRATEGIES if known_strategies.get(s, 0) < 1.0]`. -/
def underTried (known : List (String × ℚ)) : List String :=
  allStrategies.filter (fun s => decide (knownLookup known s < 1))

/-- Source: `random.choice(l)` with the random index made explicit. -/
def listChoice (l : List String) (i : ℕ) : String :=
  l.getD (i % l.length) "restart_service"

/-- Python's `max(known, key=known.get)`: scan in insertion order and
replace the current best only on a strictly greater value. -/
def argmaxAux : String → ℚ → List (String × ℚ) → String × ℚ
  | s, v, [] => (s, v)
  | s, v, (s2, v2) :: rest => if v < v2 then argmaxAux s2 v2 rest else argmaxAux s v rest

/-- The strategy `max(known_strategies, key=known_strategies.get)`
returns.  On an empty dict Python raises; the exploit branch only runs
with a non-empty dict, so the sentinel is unreachable there. -/
def argmaxKnown : List (String × ℚ) → String
  | [] => "restart_service"
  | (s, v) :: rest => (argmaxAux s v rest).1

/-- The raw JSON the LLM returns to `_llm_select_strategy` (already
parsed), `none` for a transport or parse failure. -/
structure RawLlmChoice where
  strategy : String
  tools_to_call : List String
  tool_parameters : ToolParams
  deriving DecidableEq, Repr

/-- Source: `_llm_select_strategy` validation: an unknown strategy is rejected
(`None`), tool names are filtered to `*_activity`, an empty filtered
list falls back to the heuristic tools, parameters are clamped. -/
def llmSelectStrategy (raw : Option RawLlmChoice) : Option RawLlmChoice :=
  match raw with
  | none => none
  | some r =>
    if allStrategies.contains r.strategy then
      let valid := r.tools_to_call.filter (fun t => t.endsWith "_activity")
      some { strategy := r.strategy
             tools_to_call := if valid.isEmpty then heuristicTools r.strategy else valid
             tool_parameters := clampParameters r.tool_parameters }
    else none

/-- The dict returned by `select_strategy_activity`. -/
structure Selection where
  strategy : String
  tools_to_call : List String
  tool_parameters : ToolParams
  is_exploratory : Bool
  llm_selected : Bool
  deriving DecidableEq, Repr

/-- Source: `select_strategy_activity`.  The `random.random()` draw, the
`random.choice` index and the LLM outcome are explicit arguments. -/
def selectStrategy (incident_type : String) (force_explore : Bool)
    (randDraw exploreRate : ℚ) (store : List (String × StrategyRow))
    (choiceIdx : ℕ) (raw : Option RawLlmChoice) : Selection :=
  let known := knownStrategies store incident_type
  if force_explore || decide (randDraw < exploreRate) || known.isEmpty then
    if known.isEmpty then
      let sel := listChoice (priorsFor incident_type) choiceIdx
      { strategy := sel, tools_to_call := heuristicTools sel
        tool_parameters := heuristicParams sel
        is_exploratory := true, llm_selected := false }
    else
      let underused := underTried known
      let pool := if underused.isEmpty then allStrategies else underused
      let sel := listChoice pool choiceIdx
      { strategy := sel, tools_to_call := heuristicTools sel
        tool_parameters := heuristicParams sel
        is_exploratory := true, llm_selected := false }
  else
    match llmSelectStrategy raw with
    | some r =>
      { strategy := r.strategy, tools_to_call := r.tools_to_call
        tool_parameters := r.tool_parameters
        is_exploratory := false, llm_selected := true }
    | none =>
      let best := argmaxKnown known
      { strategy := best, tools_to_call := heuristicTools best
        tool_parameters := heuristicParams best
        is_exploratory := false, llm_selected := false }

/- ### Guardrail engine (`guardrails/safety_rules.py`) -/

/-- Source: `GuardrailVerdict`. -/
inductive Verdict where
  | allow
  | block
  | warn
  deriving DecidableEq, Repr

/-- Source: `GuardrailResult`, restricted to the verdict and the rule name (the
`reason`/`suggestion` strings are narrative). -/
structure GuardrailResult where
  verdict : Verdict
  rule_name : String
  deriving DecidableEq, Repr

/-- Source: `GuardrailConfig` with its default thresholds (env overrides out of
scope). -/
structure GuardrailConfig where
  min_instances_for_restart : ℤ := 2
  min_instances_for_rollback : ℤ := 2
  max_horizontal_instances : ℤ := 10
  min_horizontal_instances : ℤ := 1
  max_vertical_cpu : ℚ := 8
  max_vertical_memory : ℚ := 16
  min_timeout_ms : ℤ := 500
  max_timeout_ms : ℤ := 60000
  max_cost_per_incident : ℚ := 50
  max_restarts_per_incident : ℕ := 3
  max_rollbacks_per_incident : ℕ := 1
  max_total_actions_per_incident : ℕ := 10
  block_actions_if_healthy : Bool := true
  healthy_threshold : ℚ := 0.85
  enabled : Bool := true
  deriving DecidableEq, Repr

/-- The `system_state` dict as the engine reads it (`.get` with
defaults 2 and 0.0 respectively). -/
structure SysState where
  active_instances : Option ℤ := none
  health_score : Option ℚ := none
  deriving DecidableEq, Repr

/-- The `incident_context` dict: the action names taken so far and the
cumulative cost. -/
structure IncidentContext where
  actions_taken : List String := []
  total_cost : ℚ := 0
  deriving DecidableEq, Repr

/-- Source: `_check_restart_min_instances`. -/
def ruleRestartMin (cfg : GuardrailConfig) (action_type : String) (_p : ToolParams)
    (sys : SysState) (_c : IncidentContext) : Option GuardrailResult :=
  if action_type = "restart_service" then
    if sys.active_instances.getD 2 < cfg.min_instances_for_restart then
      some ⟨Verdict.block, "min_instances_for_restart"⟩
    else none
  else none

/-- Source: `_check_rollback_min_instances`. -/
def ruleRollbackMin (cfg : GuardrailConfig) (action_type : String) (_p : ToolParams)
    (sys : SysState) (_c : IncidentContext) : Option GuardrailResult :=
  if action_type = "rollback_deployment" then
    if sys.active_instances.getD 2 < cfg.min_instances_for_rollback then
      some ⟨Verdict.block, "min_instances_for_rollback"⟩
    else none
  else none

/-- Source: `_check_horizontal_scale_limits`. -/
def ruleHorizontalLimits (cfg : GuardrailConfig) (action_type : String) (p : ToolParams)
    (sys : SysState) (_c : IncidentContext) : Option GuardrailResult :=
  if action_type = "scale_horizontal" then
    let target := p.target_instances.getD 3
    if cfg.max_horizontal_instances < target then
      some ⟨Verdict.block, "max_horizontal_instances"⟩
    else if target < cfg.min_horizontal_instances then
      some ⟨Verdict.block, "min_horizontal_instances"⟩
    else
      let current := sys.active_instances.getD 2
      if 0 < current ∧ current * 3 < target then
        some ⟨Verdict.warn, "aggressive_horizontal_scaling"⟩
      else none
  else none

/-- Source: `_check_vertical_scale_limits`. -/
def ruleVerticalLimits (cfg : GuardrailConfig) (action_type : String) (p : ToolParams)
    (_sys : SysState) (_c : IncidentContext) : Option GuardrailResult :=
  if action_type = "scale_vertical" then
    if cfg.max_vertical_cpu < p.target_cpu.getD 2 then
      some ⟨Verdict.block, "max_vertical_cpu"⟩
    else if cfg.max_vertical_memory < p.target_memory.getD 4 then
      some ⟨Verdict.block, "max_vertical_memory"⟩
    else none
  else none

/-- Source: `_check_timeout_bounds`. -/
def ruleTimeoutBounds (cfg : GuardrailConfig) (action_type : String) (p : ToolParams)
    (_sys : SysState) (_c : IncidentContext) : Option GuardrailResult :=
  if action_type = "change_timeout" then
    let t := p.new_timeout.getD 5000
    if t < cfg.min_timeout_ms then some ⟨Verdict.block, "min_timeout"⟩
    else if cfg.max_timeout_ms < t then some ⟨Verdict.block, "max_timeout"⟩
    else none
  else none

/-- Source: `_check_cost_budget`. -/
def ruleCostBudget (cfg : GuardrailConfig) (_action_type : String) (_p : ToolParams)
    (_sys : SysState) (c : IncidentContext) : Option GuardrailResult :=
  if cfg.max_cost_per_incident ≤ c.total_cost then
    some ⟨Verdict.block, "cost_budget_exceeded"⟩
  else if cfg.max_cost_per_incident * 0.8 ≤ c.total_cost then
    some ⟨Verdict.warn, "cost_budget_warning"⟩
  else none

/-- Source: `_check_action_frequency`. -/
def ruleActionFrequency (cfg : GuardrailConfig) (action_type : String) (_p : ToolParams)
    (_sys : SysState) (c : IncidentContext) : Option GuardrailResult :=
  if cfg.max_total_actions_per_incident ≤ c.actions_taken.length then
    some ⟨Verdict.block, "max_total_actions"⟩
  else if action_type = "restart_service"
      ∧ cfg.max_restarts_per_incident ≤ c.actions_taken.count "restart_service" then
    some ⟨Verdict.block, "max_restarts_exceeded"⟩
  else if action_type = "rollback_deployment"
      ∧ cfg.max_rollbacks_per_incident ≤ c.actions_taken.count "rollback_deployment" then
    some ⟨Verdict.block, "max_rollbacks_exceeded"⟩
  else none

/-- Source: `_check_already_healthy`. -/
def ruleAlreadyHealthy (cfg : GuardrailConfig) (_action_type : String) (_p : ToolParams)
    (sys : SysState) (_c : IncidentContext) : Option GuardrailResult :=
  if cfg.block_actions_if_healthy then
    if cfg.healthy_threshold ≤ sys.health_score.getD 0 then
      some ⟨Verdict.warn, "system_already_healthy"⟩
    else none
  else none

/-- Source: `_build_rules`, in evaluation order. -/
def guardrailRules (cfg : GuardrailConfig) (action_type : String) (p : ToolParams)
    (sys : SysState) (c : IncidentContext) : List (Option GuardrailResult) :=
  [ruleRestartMin cfg action_type p sys c,
   ruleRollbackMin cfg action_type p sys c,
   ruleHorizontalLimits cfg action_type p sys c,
   ruleVerticalLimits cfg action_type p sys c,
   ruleTimeoutBounds cfg action_type p sys c,
   ruleCostBudget cfg action_type p sys c,
   ruleActionFrequency cfg action_type p sys c,
   ruleAlreadyHealthy cfg action_type p sys c]

/-- Source: `GuardrailEngine.check_action`: with guardrails enabled, the first
`block` wins, otherwise the first `warn`, otherwise `allow`. -/
def checkAction (cfg : GuardrailConfig) (action_type : String) (p : ToolParams)
    (sys : SysState) (c : IncidentContext) : GuardrailResult :=
  if cfg.enabled = false then ⟨Verdict.allow, "guardrails_disabled"⟩
  else
    let results := guardrailRules cfg action_type p sys c
    match results.findSome?
        (fun o => o.bind (fun r => if r.verdict = Verdict.block then some r else none)) with
    | some r => r
    | none =>
      match results.findSome?
          (fun o => o.bind (fun r => if r.verdict = Verdict.warn then some r else none)) with
      | some w => w
      | none => ⟨Verdict.allow, "all_checks_passed"⟩

/- ### Agentic executor loop (`run_sre_agent_loop_activity`) -/

/-- The outcome of one Think step of the loop: either the parsed
`ACTION: tool(…)` (after the LLM / fallback resolution of lines
319–345) or `finish`. -/
inductive AgentDecision where
  | finish
  | act (tool : String) (params : ToolParams)
  deriving DecidableEq, Repr

/-- The Act phase of `run_sre_agent_loop_activity` (lines 310–379): one
iteration per decision while `iteration < max_iterations`; `finish`
stops the loop, any other decision invokes the tool unconditionally —
the loop body contains no guardrail call — and appends the action to
`actions_taken`.  Returns the invoked `(tool, params)` pairs in order. -/
def runAgentLoop : List AgentDecision → ℕ → List (String × ToolParams)
  | _, 0 => []
  | [], _ + 1 => []
  | AgentDecision.finish :: _, _ + 1 => []
  | AgentDecision.act t p :: rest, n + 1 => (t, p) :: runAgentLoop rest n

/-- The `actions_taken` trace entries of the loop: each records the tool
name (the source stores `f"{tool}({json params})"`, which never
mentions any guardrail rule). -/
def agentLoopTrace (decisions : List AgentDecision) (maxIter : ℕ) : List String :=
  (runAgentLoop decisions maxIter).map Prod.fst

/- ### Experience store (`memory/experience_store.py`) -/

/-- An experience tuple, restricted to the fields
`ExperienceStore.store_experience` reads. -/
structure ExpRecord where
  incident_type : String
  strategy_used : String
  reward : ℚ
  recovery_time_seconds : ℚ
  success : Bool
  deriving DecidableEq, Repr

/-- The `_agent_metrics` dict. -/
structure AgentMetrics where
  total_incidents : ℕ := 0
  total_successful_remediations : ℕ := 0
  total_failed_remediations : ℕ := 0
  average_reward : ℚ := 0
  average_recovery_time : ℚ := 0
  reward_history : List ℚ := []
  recovery_time_history : List ℚ := []
  deriving DecidableEq, Repr

/-- The store's in-memory caches plus the three backing files. -/
structure StoreState where
  memExperiences : List ExpRecord := []
  memRecords : List (String × ModelStrategyRecord) := []
  memMetrics : AgentMetrics := {}
  diskExperiences : List ExpRecord := []
  diskRecords : List (String × ModelStrategyRecord) := []
  diskMetrics : AgentMetrics := {}
  deriving DecidableEq, Repr

/-- A fresh store. -/
def emptyStore : StoreState := {}

/-- Python dict assignment `m[key] = v` on an association list. -/
def setRecord : List (String × ModelStrategyRecord) → String → ModelStrategyRecord →
    List (String × ModelStrategyRecord)
  | [], k, v => [(k, v)]
  | (k2, v2) :: rest, k, v =>
    if k2 = k then (k, v) :: rest else (k2, v2) :: setRecord rest k v

/-- Source: `ExperienceStore._save`: three sequential `json.dump` writes
(experiences, strategy records, agent metrics).  `f1 f2 f3` say whether
each write raises an IO error; a failed write leaves its file and every
later file untouched and aborts the save.  Returns the resulting state
and whether the save completed. -/
def saveStore (s : StoreState) (f1 f2 f3 : Bool) : StoreState × Bool :=
  if f1 then (s, false)
  else
    let s1 := { s with diskExperiences := s.memExperiences }
    if f2 then (s1, false)
    else
      let s2 := { s1 with diskRecords := s.memRecords }
      if f3 then (s2, false)
      else ({ s2 with diskMetrics := s.memMetrics }, true)

/-- Source: `ExperienceStore.store_experience`: append the experience, update
the `"<strategy>:<incident>"` record via `update_with_result`, update
the agent metrics, then `_save`. -/
def storeExperience (s : StoreState) (e : ExpRecord) (f1 f2 f3 : Bool) :
    StoreState × Bool :=
  let key := e.strategy_used ++ ":" ++ e.incident_type
  let r1 := updateWithResult ((s.memRecords.lookup key).getD initModelRecord)
    e.reward e.recovery_time_seconds e.success
  let m := s.memMetrics
  let rh := m.reward_history ++ [e.reward]
  let rt := m.recovery_time_history ++ [e.recovery_time_seconds]
  let total := m.total_incidents + 1
  let m1 : AgentMetrics :=
    { total_incidents := total
      total_successful_remediations :=
        m.total_successful_remediations + (if e.success then 1 else 0)
      total_failed_remediations :=
        m.total_failed_remediations + (if e.success then 0 else 1)
      average_reward := rh.sum / (total : ℚ)
      average_recovery_time := rt.sum / (total : ℚ)
      reward_history := rh
      recovery_time_history := rt }
  let s1 := { s with
    memExperiences := s.memExperiences ++ [e]
    memRecords := setRecord s.memRecords key r1
    memMetrics := m1 }
  saveStore s1 f1 f2 f3

/- ### Learning-loop state machine (`evoo_agent.py` + state workflows) -/

/-- The `EVOOState` phases reachable in the learning loop. -/
inductive Phase where
  | waiting
  | planning
  | executing
  | evaluating
  | updating
  | completed
  | failed
  deriving DecidableEq, Repr

/-- The state-machine data the run-budget claim depends on:
`run_index`, `max_runs` and the number of experiences appended so far. -/
structure LoopSt where
  phase : Phase
  run_index : ℕ
  max_runs : ℕ
  experiences : ℕ
  deriving DecidableEq, Repr

/-- One state transition of the learning loop, as the state workflows
return it: `WaitingForIncident` completes as soon as
`run_index ≥ max_runs` and otherwise plans; `EvaluatingOutcome` appends
exactly one experience before entering `UpdatingStrategy` (or fails,
possibly after the store activity already persisted the experience);
`UpdatingStrategy` bumps `run_index` by one and loops; every active
state may fail. -/
inductive LoopStep : LoopSt → LoopSt → Prop where
  | waiting_complete (s : LoopSt) : s.phase = Phase.waiting → s.max_runs ≤ s.run_index →
      LoopStep s { s with phase := Phase.completed }
  | waiting_plan (s : LoopSt) : s.phase = Phase.waiting → s.run_index < s.max_runs →
      LoopStep s { s with phase := Phase.planning }
  | plan_exec (s : LoopSt) : s.phase = Phase.planning →
      LoopStep s { s with phase := Phase.executing }
  | plan_fail (s : LoopSt) : s.phase = Phase.planning →
      LoopStep s { s with phase := Phase.failed }
  | exec_eval (s : LoopSt) : s.phase = Phase.executing →
      LoopStep s { s with phase := Phase.evaluating }
  | exec_fail (s : LoopSt) : s.phase = Phase.executing →
      LoopStep s { s with phase := Phase.failed }
  | eval_update (s : LoopSt) : s.phase = Phase.evaluating →
      LoopStep s { s with phase := Phase.updating, experiences := s.experiences + 1 }
  | eval_fail (s : LoopSt) : s.phase = Phase.evaluating →
      LoopStep s { s with phase := Phase.failed }
  | eval_fail_after_store (s : LoopSt) : s.phase = Phase.evaluating →
      LoopStep s { s with phase := Phase.failed, experiences := s.experiences + 1 }
  | update_wait (s : LoopSt) : s.phase = Phase.updating →
      LoopStep s { s with phase := Phase.waiting, run_index := s.run_index + 1 }
  | update_fail (s : LoopSt) : s.phase = Phase.updating →
      LoopStep s { s with phase := Phase.failed }

/-- The initial state of a task with run budget `mr`. -/
def initSt (mr : ℕ) : LoopSt :=
  { phase := Phase.waiting, run_index := 0, max_runs := mr, experiences := 0 }

/- ### Concrete inputs used by the counterexamples and witnesses -/

/-- Baseline metrics: everything zero except a 0.5 availability. -/
def mZero : Metrics :=
  { latency_ms := 0, cpu_percent := 0, memory_percent := 0, error_rate := 0,
    availability := 0.5, active_instances := 1, timeout_ms := 5000 }

/-- Evaluator input whose formula value `-50.002` is not representable
at two decimals. -/
def pC1 : RewardParams :=
  { metrics_before := mZero, metrics_after := mZero,
    recovery_time_seconds := 0.004, service_restored := false,
    infrastructure_cost := 0, strategy_name := "", incident_type := "" }

/-- Evaluator input whose two sub-cent penalties (0.004 each) vanish in
the rounded breakdown but not in the reward. -/
def pC8 : RewardParams :=
  { metrics_before := mZero, metrics_after := mZero,
    recovery_time_seconds := 0.008, service_restored := true,
    infrastructure_cost := 0.02, strategy_name := "", incident_type := "" }

/-- Evaluator input with every component an exact multiple of 0.01. -/
def pC8w : RewardParams :=
  { metrics_before := mZero, metrics_after := mZero,
    recovery_time_seconds := 0, service_restored := true,
    infrastructure_cost := 0, strategy_name := "", incident_type := "" }

/-- Evaluator input with `availability_after = 0.1`, below the 0.5
`availability_before`. -/
def pC10a : RewardParams :=
  { metrics_before := mZero, metrics_after := { mZero with availability := 0.1 },
    recovery_time_seconds := 30, service_restored := false,
    infrastructure_cost := 1, strategy_name := "restart_service",
    incident_type := "service_crash" }

/-- Input: `pC10a` with `availability_after` raised to 0.2, still below
`availability_before`. -/
def pC10b : RewardParams :=
  { pC10a with metrics_after := { pC10a.metrics_after with availability := 0.2 } }

/-- Replace only `metrics_after.availability` of an evaluator input. -/
def withAvail (p : RewardParams) (a : ℚ) : RewardParams :=
  { p with metrics_after := { p.metrics_after with availability := a } }

/-- Post-metrics with availability exactly 0.99 but a 50% error rate. -/
def mC9 : Metrics := { mZero with availability := 0.99, error_rate := 0.5 }

/-- A system state with a single active instance. -/
def sysOneInstance : SysState := { active_instances := some 1, health_score := some 0 }

/-- An incident context with no prior actions and zero cost. -/
def ctxEmpty : IncidentContext := { actions_taken := [], total_cost := 0 }

/-- A strategies store holding one used record for
`(service_crash, restart_service)`. -/
def demoStore : List (String × StrategyRow) :=
  [("service_crash::restart_service", { total_uses := 2, average_reward := 80 })]

/-- An experience used to exercise the store. -/
def expDemo : ExpRecord :=
  { incident_type := "service_crash", strategy_used := "restart_service",
    reward := 80, recovery_time_seconds := 30, success := true }

/-- The inductive invariant of the learning loop. -/
def LoopInv (s : LoopSt) : Prop :=
  s.run_index ≤ s.max_runs
  ∧ s.experiences ≤ s.max_runs
  ∧ (s.phase = Phase.waiting → s.experiences = s.run_index)
  ∧ (s.phase = Phase.planning → s.experiences = s.run_index ∧ s.run_index < s.max_runs)
  ∧ (s.phase = Phase.executing → s.experiences = s.run_index ∧ s.run_index < s.max_runs)
  ∧ (s.phase = Phase.evaluating → s.experiences = s.run_index ∧ s.run_index < s.max_runs)
  ∧ (s.phase = Phase.updating → s.experiences = s.run_index + 1 ∧ s.run_index < s.max_runs)
  ∧ (s.phase = Phase.failed → 0 < s.max_runs)

end Evoo

namespace Evoo

/- ### Rounding lemmas -/

theorem roundHalfEven_intCast (z : ℤ) : roundHalfEven (z : ℚ) = z := by
  unfold roundHalfEven
  simp

theorem roundHalfEven_le (q : ℚ) : (roundHalfEven q : ℚ) ≤ q + 1/2 := by
  unfold roundHalfEven
  have hf : (⌊q⌋ : ℚ) ≤ q := Int.floor_le q
  have hf2 : q < (⌊q⌋ : ℚ) + 1 := Int.lt_floor_add_one q
  split_ifs <;> push_cast <;> linarith

theorem le_roundHalfEven (q : ℚ) : q - 1/2 ≤ (roundHalfEven q : ℚ) := by
  unfold roundHalfEven
  have hf : (⌊q⌋ : ℚ) ≤ q := Int.floor_le q
  have hf2 : q < (⌊q⌋ : ℚ) + 1 := Int.lt_floor_add_one q
  split_ifs with h1 h2 <;> push_cast <;> linarith

theorem roundHalfEven_mono {a b : ℚ} (h : a ≤ b) :
    roundHalfEven a ≤ roundHalfEven b := by
  by_contra hc
  push_neg at hc
  have h1 : (roundHalfEven b : ℚ) + 1 ≤ (roundHalfEven a : ℚ) := by
    exact_mod_cast hc
  have h2 := roundHalfEven_le a
  have h3 := le_roundHalfEven b
  have hba : b ≤ a := by linarith
  have hab : a = b := le_antisymm h hba
  subst hab
  omega

theorem pyRound_mono (nd : ℕ) {a b : ℚ} (h : a ≤ b) :
    pyRound nd a ≤ pyRound nd b := by
  unfold pyRound
  have hpow : (0 : ℚ) < 10 ^ nd := by positivity
  have h1 : a * 10 ^ nd ≤ b * 10 ^ nd := by nlinarith
  have h2 := roundHalfEven_mono h1
  have h3 : (roundHalfEven (a * 10 ^ nd) : ℚ) ≤ (roundHalfEven (b * 10 ^ nd) : ℚ) := by
    exact_mod_cast h2
  exact div_le_div_of_nonneg_right h3 hpow.le

theorem pyRound_eq_of_int (nd : ℕ) (q : ℚ) (z : ℤ) (h : q * 10 ^ nd = (z : ℚ)) :
    pyRound nd q = q := by
  unfold pyRound
  rw [h, roundHalfEven_intCast]
  have hpow : (10 : ℚ) ^ nd ≠ 0 := by positivity
  field_simp
  linarith [h]

theorem pyRound_fix_mul (nd : ℕ) (q : ℚ) (h : pyRound nd q = q) :
    q * 10 ^ nd = (roundHalfEven (q * 10 ^ nd) : ℚ) := by
  unfold pyRound at h
  have hpow : (10 : ℚ) ^ nd ≠ 0 := by positivity
  field_simp at h
  linarith [h]

theorem pyRound_eq_low (nd : ℕ) (q : ℚ) (f : ℤ)
    (hf : ⌊q * 10 ^ nd⌋ = f) (h : q * 10 ^ nd - f < 1/2) :
    pyRound nd q = (f : ℚ) / 10 ^ nd := by
  unfold pyRound roundHalfEven
  rw [hf, if_pos h]

theorem pyRound_eq_high (nd : ℕ) (q : ℚ) (f : ℤ)
    (hf : ⌊q * 10 ^ nd⌋ = f) (h : 1/2 < q * 10 ^ nd - f) :
    pyRound nd q = ((f + 1 : ℤ) : ℚ) / 10 ^ nd := by
  unfold pyRound roundHalfEven
  rw [hf, if_neg (by linarith), if_pos h]

theorem pyRound_zero (nd : ℕ) : pyRound nd 0 = 0 :=
  pyRound_eq_of_int nd 0 0 (by norm_num)

theorem pyRound_one (nd : ℕ) : pyRound nd 1 = 1 :=
  pyRound_eq_of_int nd 1 (10 ^ nd) (by push_cast; ring)

theorem pyRound_fix_add (nd : ℕ) (a b : ℚ)
    (ha : pyRound nd a = a) (hb : pyRound nd b = b) :
    pyRound nd (a + b) = a + b := by
  have h1 := pyRound_fix_mul nd a ha
  have h2 := pyRound_fix_mul nd b hb
  apply pyRound_eq_of_int nd _
    (roundHalfEven (a * 10 ^ nd) + roundHalfEven (b * 10 ^ nd))
  push_cast
  linarith [h1, h2]

theorem pyRound_fix_neg (nd : ℕ) (a : ℚ) (ha : pyRound nd a = a) :
    pyRound nd (-a) = -a := by
  have h1 := pyRound_fix_mul nd a ha
  apply pyRound_eq_of_int nd _ (-(roundHalfEven (a * 10 ^ nd)))
  push_cast
  linarith [h1]

/- ### Claim C1 -/

/-- Claim C1, counterexample: at metrics all zero (availability 0.5 on
both sides), `recovery_time_seconds = 0.004`, nothing restored and zero
cost, the formula value is `-50.002` but the evaluator returns the
two-decimal rounding `-50`, so the returned reward is not equal to the
claimed formula. -/
theorem reward_not_exactly_spec_formula :
    calculateReward pC1 ≠ specRewardFormula pC1 := by
  have hsc : unnecessaryScaling pC1 = false := by decide
  have hres : pC1.service_restored = false := rfl
  have hraw : rawReward pC1 = -25001/500 := by
    unfold rawReward rtPenalty costPenalty errorPenalty latencyBonus availBonus cpuBonus
    rw [hsc, hres]
    norm_num [pC1, mZero]
  have h1 : calculateReward pC1 = -50 := by
    unfold calculateReward
    rw [hraw, pyRound_eq_high 2 _ (-5001) (by norm_num) (by norm_num)]
    norm_num
  have h2 : specRewardFormula pC1 = -25001/500 := by
    unfold specRewardFormula
    rw [hsc, hres]
    norm_num [pC1, mZero]
  rw [h1, h2]
  norm_num

/-- Claim C1 as amended: for every input, `calculate_reward_activity`
returns the specification's reward formula rounded to two decimal
places (Python `round(·, 2)`), rather than the raw formula value. -/
theorem reward_matches_spec_formula_rounded (p : RewardParams) :
    calculateReward p = pyRound 2 (specRewardFormula p) := by
  unfold calculateReward
  congr 1
  unfold rawReward specRewardFormula rtPenalty costPenalty errorPenalty
    latencyBonus availBonus cpuBonus
  cases hb : p.service_restored <;> cases hs : unnecessaryScaling p <;>
    simp [hb, hs] <;> ring

/- ### Claim C8 -/

/-- Claim C8, counterexample: with `service_restored`,
`recovery_time_seconds = 0.008` and `infrastructure_cost = 0.02`, the
two penalties of 0.004 each round to 0.00 in the breakdown (which then
sums to 100) while the reward is `round(100 − 0.008, 2) = 99.99`: the
breakdown does not sum to the returned reward. -/
theorem breakdown_sum_differs_from_reward :
    breakdownSum pC8 ≠ calculateReward pC8 := by
  have hsc : unnecessaryScaling pC8 = false := by decide
  have hres : pC8.service_restored = true := rfl
  have hrt : rtPenalty pC8 = 1/250 := by norm_num [rtPenalty, pC8]
  have hcost : costPenalty pC8 = 1/250 := by norm_num [costPenalty, pC8]
  have herr : errorPenalty pC8 = 0 := by norm_num [errorPenalty, pC8, mZero]
  have hlat : latencyBonus pC8 = 0 := by norm_num [latencyBonus, pC8, mZero]
  have hav : availBonus pC8 = 0 := by norm_num [availBonus, pC8, mZero]
  have hcpu : cpuBonus pC8 = 0 := by norm_num [cpuBonus, pC8, mZero]
  have hsmall : pyRound 2 (1/250 : ℚ) = 0 := by
    rw [pyRound_eq_low 2 _ 0 (by norm_num) (by norm_num)]
    norm_num
  have hsmall2 : pyRound 2 ((250 : ℚ)⁻¹) = 0 := by
    rw [show ((250 : ℚ)⁻¹) = 1/250 by norm_num]
    exact hsmall
  have hsum : breakdownSum pC8 = 100 := by
    unfold breakdownSum rewardBreakdown
    rw [hsc, hres, hrt, hcost, herr, hlat, hav, hcpu]
    simp [hsmall, hsmall2, pyRound_zero]
  have hraw : rawReward pC8 = 12499/125 := by
    unfold rawReward
    rw [hsc, hres, hrt, hcost, herr, hlat, hav, hcpu]
    norm_num
  have hrew : calculateReward pC8 = 9999/100 := by
    unfold calculateReward
    rw [hraw, pyRound_eq_low 2 _ 9999 (by norm_num) (by norm_num)]
    norm_num
  rw [hsum, hrew]
  norm_num

/-- Claim C8 as amended: when every reward component is an exact
multiple of 0.01 (each is a fixed point of the two-decimal rounding),
the breakdown values sum exactly to the returned reward; in general the
breakdown reconciles to the reward only up to the per-component and
final roundings. -/
theorem breakdown_sum_reconciles_on_exact_components (p : RewardParams)
    (h1 : pyRound 2 (rtPenalty p) = rtPenalty p)
    (h2 : pyRound 2 (costPenalty p) = costPenalty p)
    (h3 : pyRound 2 (errorPenalty p) = errorPenalty p)
    (h4 : pyRound 2 (latencyBonus p) = latencyBonus p)
    (h5 : pyRound 2 (availBonus p) = availBonus p)
    (h6 : pyRound 2 (cpuBonus p) = cpuBonus p) :
    breakdownSum p = calculateReward p := by
  have hA : pyRound 2 (if p.service_restored then (100 : ℚ) else -50)
      = (if p.service_restored then (100 : ℚ) else -50) := by
    cases hb : p.service_restored <;> simp only [hb, Bool.false_eq_true, if_false, if_true]
    · exact pyRound_eq_of_int 2 _ (-5000) (by norm_num)
    · exact pyRound_eq_of_int 2 _ 10000 (by norm_num)
  have hP : pyRound 2 (if unnecessaryScaling p then (-10 : ℚ) else 0)
      = (if unnecessaryScaling p then (-10 : ℚ) else 0) := by
    cases hs : unnecessaryScaling p <;> simp only [hs, Bool.false_eq_true, if_false, if_true]
    · exact pyRound_zero 2
    · exact pyRound_eq_of_int 2 _ (-1000) (by norm_num)
  have hfix : pyRound 2 (rawReward p) = rawReward p := by
    unfold rawReward
    simp only [sub_eq_add_neg]
    apply pyRound_fix_add
    apply pyRound_fix_add
    apply pyRound_fix_add
    apply pyRound_fix_add
    apply pyRound_fix_add
    apply pyRound_fix_add
    apply pyRound_fix_add
    · exact hA
    · exact pyRound_fix_neg 2 _ h1
    · exact pyRound_fix_neg 2 _ h2
    · exact pyRound_fix_neg 2 _ h3
    · exact h4
    · exact h5
    · exact hP
    · exact h6
  have hsum : breakdownSum p = rawReward p := by
    unfold breakdownSum rewardBreakdown rawReward
    cases hb : p.service_restored <;> cases hs : unnecessaryScaling p <;>
      simp [hb, hs, h1, h2, h3, h4, h5, h6] <;> ring
  rw [hsum]
  unfold calculateReward
  rw [hfix]

/-- Witness for the amended C8: at all-zero metrics with the service
restored, every component is 0 (a multiple of 0.01) and the breakdown
sums to the reward 100. -/
theorem breakdown_sum_reconciles_witness : breakdownSum pC8w = calculateReward pC8w := by
  have hrt : rtPenalty pC8w = 0 := by norm_num [rtPenalty, pC8w]
  have hcost : costPenalty pC8w = 0 := by norm_num [costPenalty, pC8w]
  have herr : errorPenalty pC8w = 0 := by norm_num [errorPenalty, pC8w, mZero]
  have hlat : latencyBonus pC8w = 0 := by norm_num [latencyBonus, pC8w, mZero]
  have hav : availBonus pC8w = 0 := by norm_num [availBonus, pC8w, mZero]
  have hcpu : cpuBonus pC8w = 0 := by norm_num [cpuBonus, pC8w, mZero]
  exact breakdown_sum_reconciles_on_exact_components pC8w
    (by rw [hrt]; exact pyRound_zero 2) (by rw [hcost]; exact pyRound_zero 2)
    (by rw [herr]; exact pyRound_zero 2) (by rw [hlat]; exact pyRound_zero 2)
    (by rw [hav]; exact pyRound_zero 2) (by rw [hcpu]; exact pyRound_zero 2)

/- ### Claim C9 -/

/-- Claim C9, counterexample: with `availability_after = 0.99` and
`error_rate_after = 0.5`, the fallback evaluator returns `good` while a
verdict determined solely by availability (as claimed) would be
`excellent`: the heuristic also reads the error rate. -/
theorem fallback_verdict_not_solely_availability :
    (llmEvaluateVerdict none mC9).1 = "good"
    ∧ claimHeuristicVerdict mC9 = "excellent"
    ∧ (llmEvaluateVerdict none mC9).1 ≠ claimHeuristicVerdict mC9 := by
  have h1 : (llmEvaluateVerdict none mC9).1 = "good" := by
    show (fallbackVerdict mC9).1 = "good"
    norm_num [fallbackVerdict, mC9, mZero]
  have h2 : claimHeuristicVerdict mC9 = "excellent" := by
    norm_num [claimHeuristicVerdict, mC9, mZero]
  refine ⟨h1, h2, ?_⟩
  rw [h1, h2]
  decide

/-- Claim C9 as amended: whenever the LLM judge call fails the
evaluator returns `_fallback_evaluation`, whose verdict is `excellent`
exactly when `availability_after ≥ 0.99` and `error_rate_after ≤ 0.01`,
and otherwise depends on `availability_after` alone (`good` at ≥ 0.95,
`adequate` at ≥ 0.80, `poor` at ≥ 0.50, else `failed`). -/
theorem fallback_verdict_characterization (m : Metrics) :
    llmEvaluateVerdict none m = fallbackVerdict m
    ∧ (fallbackVerdict m).1 = amendedHeuristicVerdict m := by
  constructor
  · rfl
  · unfold fallbackVerdict amendedHeuristicVerdict
    split_ifs <;> rfl

/- ### Claim C10 -/

/-- Claim C10, counterexample: two inputs agreeing everywhere except
`availability_after` (0.1 versus 0.2, both below the 0.5
`availability_before`) give the same reward −65.2, because the
availability term is `max(0, after − before)`: a strictly larger
`availability_after` does not always yield a strictly larger reward. -/
theorem reward_not_strict_in_availability :
    pC10a.metrics_after.availability < pC10b.metrics_after.availability
    ∧ pC10b = { pC10a with
        metrics_after := { pC10a.metrics_after with availability := 1/5 } }
    ∧ calculateReward pC10a = calculateReward pC10b := by
  have hsc : unnecessaryScaling pC10a = false := by decide
  have hsc2 : unnecessaryScaling pC10b = false := by decide
  have hres : pC10a.service_restored = false := rfl
  have hres2 : pC10b.service_restored = false := rfl
  have ha : rawReward pC10a = -326/5 := by
    unfold rawReward rtPenalty costPenalty errorPenalty latencyBonus availBonus cpuBonus
    rw [hsc, hres]
    norm_num [pC10a, mZero]
  have hb : rawReward pC10b = -326/5 := by
    unfold rawReward rtPenalty costPenalty errorPenalty latencyBonus availBonus cpuBonus
    rw [hsc2, hres2]
    norm_num [pC10b, pC10a, mZero]
  refine ⟨by norm_num [pC10a, pC10b, mZero], by norm_num [pC10b], ?_⟩
  unfold calculateReward
  rw [ha, hb]

/-- Claim C10 as amended: raising only `availability_after` never
lowers the reward, and it strictly raises the unrounded reward whenever
the larger availability exceeds `availability_before` (the penalty-free
region of `max(0, after − before)`); the returned reward itself can
stay equal below `availability_before` or under sub-cent changes. -/
theorem reward_monotone_in_availability (p : RewardParams) (a1 a2 : ℚ) (h : a1 < a2) :
    calculateReward (withAvail p a1) ≤ calculateReward (withAvail p a2)
    ∧ (p.metrics_before.availability < a2 →
        rawReward (withAvail p a1) < rawReward (withAvail p a2)) := by
  have key : ∀ a : ℚ, rawReward (withAvail p a) =
      (if p.service_restored then (100 : ℚ) else -50)
        - rtPenalty p - costPenalty p - errorPenalty p + latencyBonus p
        + max 0 (a - p.metrics_before.availability) * 50
        + (if unnecessaryScaling p then (-10 : ℚ) else 0) + cpuBonus p := by
    intro a
    rfl
  have hm : max 0 (a1 - p.metrics_before.availability)
      ≤ max 0 (a2 - p.metrics_before.availability) :=
    max_le_max le_rfl (by linarith)
  have hraw : rawReward (withAvail p a1) ≤ rawReward (withAvail p a2) := by
    rw [key a1, key a2]
    nlinarith [hm]
  refine ⟨pyRound_mono 2 hraw, ?_⟩
  intro hb2
  have hpos : 0 < a2 - p.metrics_before.availability := by linarith
  have hlt : max 0 (a1 - p.metrics_before.availability)
      < max 0 (a2 - p.metrics_before.availability) := by
    rw [max_eq_right hpos.le]
    exact max_lt_iff.mpr ⟨hpos, by linarith⟩
  rw [key a1, key a2]
  nlinarith [hlt]

/-- Witness for the amended C10 at `pC10a` with availabilities 0.5 and
0.9: the reward is monotone and the unrounded reward strictly
increases. -/
theorem reward_monotone_in_availability_witness :
    calculateReward (withAvail pC10a (1/2)) ≤ calculateReward (withAvail pC10a (9/10))
    ∧ rawReward (withAvail pC10a (1/2)) < rawReward (withAvail pC10a (9/10)) := by
  have h := reward_monotone_in_availability pC10a (1/2) (9/10) (by norm_num)
  exact ⟨h.1, h.2 (by norm_num [pC10a, mZero])⟩

/- ### Claim C3 -/

/-- Claim C3, confirmed: for every application of the full-strategy
remediation effect — any prior metrics, incident type, strategy, tool
parameters and random draws — the returned `service_restored` flag is
true exactly when the returned `metrics_after` satisfy
`availability ≥ 0.95` and `error_rate ≤ 0.05`. -/
theorem service_restored_iff_thresholds (before : Metrics)
    (incident_type strategy_name : String) (tp : ToolParams) (noise u : ℚ) :
    (applyRemediation before incident_type strategy_name tp noise u).service_restored = true
    ↔ (0.95 ≤ (applyRemediation before incident_type strategy_name tp noise u).metrics_after.availability
       ∧ (applyRemediation before incident_type strategy_name tp noise u).metrics_after.error_rate ≤ 0.05) := by
  unfold applyRemediation
  simp [Bool.and_eq_true, decide_eq_true_eq]

/- ### Claim C4 -/

theorem updateStrategyRecord_inv (r : ActivityRecord) (q : ℚ) (b : Bool)
    (h : ActivityInv r) : ActivityInv (updateStrategyRecord r q b) := by
  obtain ⟨h1, h2, -, -, -, -⟩ := h
  unfold ActivityInv updateStrategyRecord
  refine ⟨?_, ?_, ?_, ?_, ?_, ?_⟩
  · cases b <;> simp <;> omega
  · cases b <;> simp <;> omega
  · simp
  · simp
  · have hnn : (0 : ℚ) ≤
        ((r.success_count + (if b then 1 else 0) : ℕ) : ℚ) / ((r.total_uses + 1 : ℕ) : ℚ) := by
      positivity
    have hmono := pyRound_mono 3 hnn
    rw [pyRound_zero] at hmono
    simpa using hmono
  · have hcount : r.success_count + (if b then 1 else 0) ≤ r.total_uses + 1 := by
      cases b <;> simp <;> omega
    have hle : ((r.success_count + (if b then 1 else 0) : ℕ) : ℚ)
        / ((r.total_uses + 1 : ℕ) : ℚ) ≤ 1 := by
      rw [div_le_one (by positivity)]
      exact_mod_cast hcount
    have hmono := pyRound_mono 3 hle
    rw [pyRound_one] at hmono
    simpa using hmono

theorem applyUpdates_inv (l : List (ℚ × Bool)) : ActivityInv (applyUpdates l) := by
  unfold applyUpdates
  have hgen : ∀ (l : List (ℚ × Bool)) (r : ActivityRecord), ActivityInv r →
      ActivityInv (l.foldl (fun r x => updateStrategyRecord r x.1 x.2) r) := by
    intro l
    induction l with
    | nil => intro r h; exact h
    | cons hd tl ih =>
      intro r h
      exact ih _ (updateStrategyRecord_inv r hd.1 hd.2 h)
  apply hgen
  unfold ActivityInv initActivityRecord
  norm_num

theorem updateWithResult_inv (r : ModelStrategyRecord) (q rt : ℚ) (b : Bool)
    (h : ModelInv r) : ModelInv (updateWithResult r q rt b) := by
  obtain ⟨h1, h2, -, -, -, -⟩ := h
  unfold ModelInv updateWithResult
  refine ⟨?_, ?_, ?_, ?_, ?_, ?_⟩
  · cases b <;> simp <;> omega
  · cases b <;> simp <;> omega
  · simp
  · simp
  · positivity
  · have hcount : r.total_successes + (if b then 1 else 0) ≤ r.total_uses + 1 := by
      cases b <;> simp <;> omega
    show ((r.total_successes + (if b then 1 else 0) : ℕ) : ℚ)
        / ((r.total_uses + 1 : ℕ) : ℚ) ≤ 1
    rw [div_le_one (by positivity)]
    exact_mod_cast hcount

theorem applyResults_inv (l : List (ℚ × ℚ × Bool)) : ModelInv (applyResults l) := by
  unfold applyResults
  have hgen : ∀ (l : List (ℚ × ℚ × Bool)) (r : ModelStrategyRecord), ModelInv r →
      ModelInv (l.foldl (fun r x => updateWithResult r x.1 x.2.1 x.2.2) r) := by
    intro l
    induction l with
    | nil => intro r h; exact h
    | cons hd tl ih =>
      intro r h
      exact ih _ (updateWithResult_inv r hd.1 hd.2.1 hd.2.2 h)
  apply hgen
  unfold ModelInv initModelRecord
  norm_num

/-- Claim C4, counterexample: after the three updates (reward 1,
success), (0, failure), (0, failure) on a fresh record,
`update_strategy_record_activity` stores `average_reward = 0.333` and
`success_rate = 0.333` — the three-decimal roundings of 1/3 — so the
stored quotients are not exactly `total_reward / total_uses` and
`success_count / total_uses`. -/
theorem strategy_record_average_is_rounded :
    (applyUpdates [(1, true), (0, false), (0, false)]).total_uses = 3
    ∧ (applyUpdates [(1, true), (0, false), (0, false)]).average_reward
        ≠ (applyUpdates [(1, true), (0, false), (0, false)]).total_reward
          / ((applyUpdates [(1, true), (0, false), (0, false)]).total_uses : ℚ)
    ∧ (applyUpdates [(1, true), (0, false), (0, false)]).success_rate
        ≠ ((applyUpdates [(1, true), (0, false), (0, false)]).success_count : ℚ)
          / ((applyUpdates [(1, true), (0, false), (0, false)]).total_uses : ℚ) := by
  have huses : (applyUpdates [(1, true), (0, false), (0, false)]).total_uses = 3 := rfl
  have hsc : (applyUpdates [(1, true), (0, false), (0, false)]).success_count = 1 := rfl
  have htot : (applyUpdates [(1, true), (0, false), (0, false)]).total_reward = 1 := by
    norm_num [applyUpdates, updateStrategyRecord, initActivityRecord]
  have hthird : pyRound 3 ((1 : ℚ)/3) = 333/1000 := by
    rw [pyRound_eq_low 3 _ 333 (by norm_num) (by norm_num)]
    norm_num
  have havg : (applyUpdates [(1, true), (0, false), (0, false)]).average_reward
      = pyRound 3 ((1 : ℚ)/3) := by
    norm_num [applyUpdates, updateStrategyRecord, initActivityRecord]
  have hsr : (applyUpdates [(1, true), (0, false), (0, false)]).success_rate
      = pyRound 3 ((1 : ℚ)/3) := by
    norm_num [applyUpdates, updateStrategyRecord, initActivityRecord]
  refine ⟨huses, ?_, ?_⟩
  · rw [havg, hthird, htot, huses]
    norm_num
  · rw [hsr, hthird, hsc, huses]
    norm_num

/-- Claim C4 as amended: after any update sequence,
`total_uses = success_count + failure_count` and
`0 ≤ success_rate ≤ 1` hold, and for `total_uses > 0` the activity
stores `average_reward` and `success_rate` as the exact quotients
rounded to three decimals (`round(·, 3)`), while
`StrategyRecord.update_with_result` keeps the exact quotients. -/
theorem strategy_record_invariants_hold (l : List (ℚ × Bool))
    (l2 : List (ℚ × ℚ × Bool)) :
    ActivityInv (applyUpdates l) ∧ ModelInv (applyResults l2) :=
  ⟨applyUpdates_inv l, applyResults_inv l2⟩

/- ### Claim C2 -/

/-- Claim C2, failing run: with one active instance, the guardrail
ruleset blocks `restart_service` under `min_instances_for_restart`,
yet `run_sre_agent_loop_activity` — which never consults the guardrail
engine — invokes the tool anyway, and no rule name enters the action
trace.  (The sibling executor in
`workflows/execution/execution_workflow.py` does perform the check the
claim describes, marking the intent.) -/
theorem agent_loop_invokes_blocked_tool :
    runAgentLoop [AgentDecision.act "restart_service" {}] 8
      = [("restart_service", ({} : ToolParams))]
    ∧ (checkAction {} "restart_service" {} sysOneInstance ctxEmpty).verdict = Verdict.block
    ∧ (checkAction {} "restart_service" {} sysOneInstance ctxEmpty).rule_name
        = "min_instances_for_restart"
    ∧ "min_instances_for_restart" ∉ agentLoopTrace [AgentDecision.act "restart_service" {}] 8 := by
  refine ⟨rfl, ?_, ?_, ?_⟩
  · decide
  · decide
  · decide

/- ### Claim C6 -/

theorem loopStep_inv {s t : LoopSt} (h : LoopStep s t) (hs : LoopInv s) : LoopInv t := by
  obtain ⟨h1, h2, h3, h4, h5, h6, h7, h8⟩ := hs
  cases h <;> (simp_all [LoopInv]; all_goals omega)

theorem loopReach_inv {mr : ℕ} {s : LoopSt}
    (h : Relation.ReflTransGen LoopStep (initSt mr) s) : LoopInv s := by
  induction h with
  | refl => simp [LoopInv, initSt]
  | tail hab hbc ih => exact loopStep_inv hbc ih

theorem loopReach_max {mr : ℕ} {s : LoopSt}
    (h : Relation.ReflTransGen LoopStep (initSt mr) s) : s.max_runs = mr := by
  induction h with
  | refl => rfl
  | tail hab hbc ih => cases hbc <;> simpa using ih

/-- Claim C6, confirmed: in every reachable state of the learning loop,
at most `max_runs` experiences have been appended; with `max_runs = 0`
the machine can only sit at the initial waiting state or at `Completed`,
always with zero experiences, and `Completed` has no further steps; the
waiting state steps to `Completed` exactly when `run_index ≥ max_runs`;
and `run_index` grows by exactly one on the updating→waiting transition
of a completed learning phase and stays unchanged on every other step. -/
theorem run_budget_invariant (mr : ℕ) (s : LoopSt)
    (h : Relation.ReflTransGen LoopStep (initSt mr) s) :
    s.experiences ≤ mr
    ∧ (mr = 0 → (s.phase = Phase.waiting ∨ s.phase = Phase.completed) ∧ s.experiences = 0)
    ∧ (s.phase = Phase.completed → ∀ t, ¬ LoopStep s t)
    ∧ (∀ t, LoopStep s t → s.phase = Phase.waiting → mr ≤ s.run_index →
        t.phase = Phase.completed)
    ∧ (∀ t, LoopStep s t → t.run_index = s.run_index
        ∨ (s.phase = Phase.updating ∧ t.phase = Phase.waiting
           ∧ t.run_index = s.run_index + 1)) := by
  have hmax := loopReach_max h
  obtain ⟨h1, h2, h3, h4, h5, h6, h7, h8⟩ := loopReach_inv h
  refine ⟨by omega, ?_, ?_, ?_, ?_⟩
  · intro h0
    refine ⟨?_, by omega⟩
    cases hp : s.phase
    case waiting => exact Or.inl rfl
    case completed => exact Or.inr rfl
    case planning => exact absurd (h4 hp).2 (by omega)
    case executing => exact absurd (h5 hp).2 (by omega)
    case evaluating => exact absurd (h6 hp).2 (by omega)
    case updating => exact absurd (h7 hp).2 (by omega)
    case failed => exact absurd (h8 hp) (by omega)
  · intro hc t hstep
    cases hstep <;> simp_all
  · intro t hstep hw hge
    cases hstep <;> simp_all
    omega
  · intro t hstep
    cases hstep with
    | update_wait hp => exact Or.inr ⟨hp, rfl, rfl⟩
    | waiting_complete hp hr => exact Or.inl rfl
    | waiting_plan hp hr => exact Or.inl rfl
    | plan_exec hp => exact Or.inl rfl
    | plan_fail hp => exact Or.inl rfl
    | exec_eval hp => exact Or.inl rfl
    | exec_fail hp => exact Or.inl rfl
    | eval_update hp => exact Or.inl rfl
    | eval_fail hp => exact Or.inl rfl
    | eval_fail_after_store hp => exact Or.inl rfl
    | update_fail hp => exact Or.inl rfl

/-- Witness for C6 at the initial state of a 2-run task. -/
theorem run_budget_invariant_witness : (initSt 2).experiences ≤ 2 :=
  (run_budget_invariant 2 (initSt 2) Relation.ReflTransGen.refl).1

/- ### Claim C7 -/

/-- Claim C7, failing run: when the strategy-records file write raises
after the experiences file write succeeded (`f2` fails in `_save`),
`store_experience` leaves the on-disk experience log containing the new
experience while the on-disk strategy records are stale, and the
in-memory caches are already mutated — neither "both take effect" nor
"the stores are unchanged on error" holds.  No transactional mechanism
(temp file + rename, or rollback) exists in the source. -/
theorem store_experience_partial_write :
    (storeExperience emptyStore expDemo false true false).2 = false
    ∧ (storeExperience emptyStore expDemo false true false).1.diskExperiences = [expDemo]
    ∧ (storeExperience emptyStore expDemo false true false).1.diskRecords = []
    ∧ emptyStore.diskExperiences = []
    ∧ (storeExperience emptyStore expDemo false true false).1.memRecords ≠ [] := by
  refine ⟨rfl, rfl, rfl, rfl, ?_⟩
  decide

/- ### Claim C5 -/

theorem getD_mem_of_lt : ∀ (l : List String) (n : ℕ) (d : String),
    n < l.length → l.getD n d ∈ l := by
  intro l
  induction l with
  | nil => intro n d h; simp at h
  | cons a as ih =>
    intro n d h
    cases n with
    | zero => simp
    | succ m =>
      rw [List.getD_cons_succ]
      exact List.mem_cons_of_mem _ (ih m d (by simpa using h))

theorem listChoice_mem (l : List String) (i : ℕ) (h : l ≠ []) : listChoice l i ∈ l := by
  unfold listChoice
  exact getD_mem_of_lt l _ _ (Nat.mod_lt _ (List.length_pos.mpr h))

theorem lookup_mem_priorsMap : ∀ (m : List (String × List String)) (k : String)
    (v : List String), m.lookup k = some v → (k, v) ∈ m := by
  intro m
  induction m with
  | nil => intro k v h; simp [List.lookup] at h
  | cons hd tl ih =>
    intro k v h
    obtain ⟨k2, v2⟩ := hd
    cases hbeq : (k == k2) with
    | true =>
      have hk : k = k2 := eq_of_beq hbeq
      simp [List.lookup, hbeq] at h
      exact List.mem_cons.mpr (Or.inl (by rw [hk, h]))
    | false =>
      simp [List.lookup, hbeq] at h
      exact List.mem_cons_of_mem _ (ih k v h)

theorem priorsFor_ne_nil (it : String) : priorsFor it ≠ [] := by
  unfold priorsFor
  cases hl : strategyPriors.lookup it with
  | none => simp [allStrategies]
  | some l =>
    have hmem := lookup_mem_priorsMap strategyPriors it l hl
    have hall : ∀ p ∈ strategyPriors, p.2 ≠ [] := by decide
    simpa using hall _ hmem

theorem argmaxAux_mem (l : List (String × ℚ)) : ∀ (s : String) (v : ℚ),
    argmaxAux s v l ∈ (s, v) :: l := by
  induction l with
  | nil => intro s v; simp [argmaxAux]
  | cons hd tl ih =>
    intro s v
    obtain ⟨s2, v2⟩ := hd
    by_cases h : v < v2
    · rw [show argmaxAux s v ((s2, v2) :: tl) = argmaxAux s2 v2 tl from by
        simp [argmaxAux, h]]
      exact List.mem_cons_of_mem _ (ih s2 v2)
    · rw [show argmaxAux s v ((s2, v2) :: tl) = argmaxAux s v tl from by
        simp [argmaxAux, h]]
      rcases List.mem_cons.mp (ih s v) with h1 | h1
      · rw [h1]; exact List.mem_cons_self _ _
      · exact List.mem_cons_of_mem _ (List.mem_cons_of_mem _ h1)

theorem argmaxAux_le (l : List (String × ℚ)) : ∀ (s : String) (v : ℚ),
    v ≤ (argmaxAux s v l).2 ∧ ∀ p ∈ l, p.2 ≤ (argmaxAux s v l).2 := by
  induction l with
  | nil => intro s v; simp [argmaxAux]
  | cons hd tl ih =>
    intro s v
    obtain ⟨s2, v2⟩ := hd
    by_cases h : v < v2
    · rw [show argmaxAux s v ((s2, v2) :: tl) = argmaxAux s2 v2 tl from by
        simp [argmaxAux, h]]
      obtain ⟨ih1, ih2⟩ := ih s2 v2
      refine ⟨le_trans h.le ih1, ?_⟩
      intro p hp
      rcases List.mem_cons.mp hp with h1 | h1
      · rw [h1]; exact ih1
      · exact ih2 p h1
    · rw [show argmaxAux s v ((s2, v2) :: tl) = argmaxAux s v tl from by
        simp [argmaxAux, h]]
      obtain ⟨ih1, ih2⟩ := ih s v
      refine ⟨ih1, ?_⟩
      intro p hp
      rcases List.mem_cons.mp hp with h1 | h1
      · rw [h1]; exact le_trans (not_lt.mp h) ih1
      · exact ih2 p h1

theorem argmaxKnown_spec (k : List (String × ℚ)) (hk : k ≠ []) :
    ∃ v, (argmaxKnown k, v) ∈ k ∧ ∀ p ∈ k, p.2 ≤ v := by
  cases k with
  | nil => exact absurd rfl hk
  | cons hd tl =>
    obtain ⟨s, v⟩ := hd
    refine ⟨(argmaxAux s v tl).2, ?_, ?_⟩
    · exact argmaxAux_mem tl s v
    · intro p hp
      rcases List.mem_cons.mp hp with h1 | h1
      · rw [h1]; exact (argmaxAux_le tl s v).1
      · exact (argmaxAux_le tl s v).2 p h1

theorem selectStrategy_known_empty (it : String) (force : Bool)
    (randDraw exploreRate : ℚ) (store : List (String × StrategyRow)) (choiceIdx : ℕ)
    (raw : Option RawLlmChoice) (hk : knownStrategies store it = []) :
    selectStrategy it force randDraw exploreRate store choiceIdx raw =
      { strategy := listChoice (priorsFor it) choiceIdx
        tools_to_call := heuristicTools (listChoice (priorsFor it) choiceIdx)
        tool_parameters := heuristicParams (listChoice (priorsFor it) choiceIdx)
        is_exploratory := true
        llm_selected := false } := by
  unfold selectStrategy
  rw [hk]
  simp

theorem selectStrategy_explore_known (it : String) (force : Bool)
    (randDraw exploreRate : ℚ) (store : List (String × StrategyRow)) (choiceIdx : ℕ)
    (raw : Option RawLlmChoice)
    (h1 : (force || decide (randDraw < exploreRate)) = true)
    (hk : knownStrategies store it ≠ []) :
    selectStrategy it force randDraw exploreRate store choiceIdx raw =
      { strategy :=
          listChoice (if (underTried (knownStrategies store it)).isEmpty
            then allStrategies else underTried (knownStrategies store it)) choiceIdx
        tools_to_call :=
          heuristicTools (listChoice (if (underTried (knownStrategies store it)).isEmpty
            then allStrategies else underTried (knownStrategies store it)) choiceIdx)
        tool_parameters :=
          heuristicParams (listChoice (if (underTried (knownStrategies store it)).isEmpty
            then allStrategies else underTried (knownStrategies store it)) choiceIdx)
        is_exploratory := true
        llm_selected := false } := by
  have hke : (knownStrategies store it).isEmpty = false := by
    cases hc : knownStrategies store it with
    | nil => exact absurd hc hk
    | cons a l => rfl
  unfold selectStrategy
  rw [h1]
  simp [hke]

/-- Claim C5, confirmed: the planner explores exactly when
`force_explore` holds, the uniform draw is below ε, or no strategy has
recorded uses for the incident type (so a first-ever run always
explores); with nothing known it draws from the incident type's fixed
prior list; otherwise from the under-tried set
`{s : known.get(s, 0) < 1.0}`, falling back to the full strategy set
when that set is empty; and when the exploit branch gets no valid LLM
choice it deterministically returns the strategy of maximal known
average reward with its heuristic tool sequence and default
parameters. -/
theorem planner_policy_characterization (it : String) (force : Bool)
    (randDraw exploreRate : ℚ) (store : List (String × StrategyRow)) (choiceIdx : ℕ)
    (raw : Option RawLlmChoice) :
    (selectStrategy it force randDraw exploreRate store choiceIdx raw).is_exploratory
      = (force || decide (randDraw < exploreRate) || (knownStrategies store it).isEmpty)
    ∧ (knownStrategies store it = [] →
        (selectStrategy it force randDraw exploreRate store choiceIdx raw).strategy
          = listChoice (priorsFor it) choiceIdx
        ∧ (selectStrategy it force randDraw exploreRate store choiceIdx raw).strategy
            ∈ priorsFor it)
    ∧ ((force || decide (randDraw < exploreRate)) = true → knownStrategies store it ≠ [] →
        (selectStrategy it force randDraw exploreRate store choiceIdx raw).strategy
          = listChoice (if (underTried (knownStrategies store it)).isEmpty
              then allStrategies else underTried (knownStrategies store it)) choiceIdx
        ∧ (selectStrategy it force randDraw exploreRate store choiceIdx raw).strategy
            ∈ (if (underTried (knownStrategies store it)).isEmpty
               then allStrategies else underTried (knownStrategies store it)))
    ∧ ((selectStrategy it force randDraw exploreRate store choiceIdx raw).is_exploratory
          = false →
        llmSelectStrategy raw = none →
        (selectStrategy it force randDraw exploreRate store choiceIdx raw).strategy
          = argmaxKnown (knownStrategies store it)
        ∧ (selectStrategy it force randDraw exploreRate store choiceIdx raw).tools_to_call
            = heuristicTools (argmaxKnown (knownStrategies store it))
        ∧ (selectStrategy it force randDraw exploreRate store choiceIdx raw).tool_parameters
            = heuristicParams (argmaxKnown (knownStrategies store it))
        ∧ ∃ v, ((selectStrategy it force randDraw exploreRate store choiceIdx raw).strategy, v)
              ∈ knownStrategies store it
            ∧ ∀ p ∈ knownStrategies store it, p.2 ≤ v) := by
  by_cases hk : knownStrategies store it = []
  · have hshape := selectStrategy_known_empty it force randDraw exploreRate store choiceIdx raw hk
    refine ⟨?_, ?_, ?_, ?_⟩
    · rw [hshape, hk]
      simp
    · intro _
      rw [hshape]
      exact ⟨rfl, listChoice_mem _ _ (priorsFor_ne_nil it)⟩
    · intro _ hne
      exact absurd hk hne
    · intro hexp _
      rw [hshape] at hexp
      simp at hexp
  · by_cases h1 : (force || decide (randDraw < exploreRate)) = true
    · have hshape := selectStrategy_explore_known it force randDraw exploreRate store
        choiceIdx raw h1 hk
      refine ⟨?_, ?_, ?_, ?_⟩
      · rw [hshape, h1]
        simp
      · intro h0
        exact absurd h0 hk
      · intro _ _
        rw [hshape]
        refine ⟨rfl, ?_⟩
        by_cases hu : (underTried (knownStrategies store it)).isEmpty
        · rw [if_pos hu]
          exact listChoice_mem _ _ (by simp [allStrategies])
        · rw [if_neg hu]
          refine listChoice_mem _ _ ?_
          intro hnil
          rw [hnil] at hu
          exact hu rfl
      · intro hexp _
        rw [hshape] at hexp
        simp at hexp
    · have hkf : (knownStrategies store it).isEmpty = false := by
        cases hc : knownStrategies store it with
        | nil => exact absurd hc hk
        | cons a l => rfl
      have h1f : (force || decide (randDraw < exploreRate)) = false := by
        cases hb : (force || decide (randDraw < exploreRate)) with
        | true => exact absurd hb h1
        | false => rfl
      have hcondFalse : (force || decide (randDraw < exploreRate)
          || (knownStrategies store it).isEmpty) = false := by
        rw [h1f, hkf]
        rfl
      cases hllm : llmSelectStrategy raw with
      | some r =>
        refine ⟨?_, ?_, ?_, ?_⟩
        · rw [hcondFalse]
          simp [selectStrategy, hcondFalse, hllm]
        · intro h0
          exact absurd h0 hk
        · intro hf _
          exact absurd hf h1
        · intro _ hnone
          exact absurd hnone (by simp)
      | none =>
        have hshape : selectStrategy it force randDraw exploreRate store choiceIdx raw =
            { strategy := argmaxKnown (knownStrategies store it)
              tools_to_call := heuristicTools (argmaxKnown (knownStrategies store it))
              tool_parameters := heuristicParams (argmaxKnown (knownStrategies store it))
              is_exploratory := false
              llm_selected := false } := by
          simp [selectStrategy, hcondFalse, hllm]
        refine ⟨?_, ?_, ?_, ?_⟩
        · rw [hshape, hcondFalse]
        · intro h0
          exact absurd h0 hk
        · intro hf _
          exact absurd hf h1
        · intro _ _
          rw [hshape]
          obtain ⟨v, hv1, hv2⟩ := argmaxKnown_spec _ hk
          exact ⟨rfl, rfl, rfl, v, hv1, hv2⟩

/-- Witness for C5: with one known record for
`(service_crash, restart_service)`, no forced exploration, a draw of
0.5 against ε = 0.2 and a failed LLM call, the planner exploits and
returns the argmax of the known strategies. -/
theorem planner_policy_characterization_witness :
    (selectStrategy "service_crash" false (1/2) (1/5) demoStore 0 none).strategy
      = argmaxKnown (knownStrategies demoStore "service_crash") := by
  have h := planner_policy_characterization "service_crash" false (1/2) (1/5) demoStore 0 none
  have hd : decide ((1 : ℚ)/2 < 1/5) = false := by
    simp only [decide_eq_false_iff_not]
    norm_num
  have hke : (knownStrategies demoStore "service_crash").isEmpty = false := by decide
  have hexp : (selectStrategy "service_crash" false (1/2) (1/5) demoStore 0 none).is_exploratory
      = false := by
    rw [h.1, hd, hke]
    rfl
  exact (h.2.2.2 hexp rfl).1

end Evoo
